import Mathlib

/-!
Shallow embedding of the lifecycle controller of `useSqPaymentForm.ts`,
the presentational shell of `SquarePaymentForm.tsx`, and the shared
context declaration of `Context.tsx`, together with proofs about the
properties the repository documents.

Conventions of the embedding:
* JavaScript `null` / `undefined` values become `Option`.
* The external `SqPaymentForm` handle is a black box; its observable
  interactions (construct, build, destroy, recalculateSize, ...) are
  recorded as explicit event lists.
* React state updates become explicit state passing on `HookState`.
* DOM element presence is an injected query `String → Bool`.
-/

namespace SqForm

/-- The wallet availability enum used by the hook: the union type
`PayState = loading | ready | unavailable` of `models.ts`. -/
inductive PayState
| loading
| ready
| unavailable
deriving DecidableEq

/-- The `SqMethods` record delivered to the `methodsSupported` callback.
A field is `none` when the corresponding key is absent from the event
object, `some v` when present with boolean value `v`. -/
structure SqMethods where
  applePay : Option Bool
  googlePay : Option Bool
  masterpass : Option Bool
deriving DecidableEq

/-- The three per-wallet state cells of the hook
(`applePayState`, `googlePayState`, `masterpassState`). -/
structure WalletStates where
  applePayState : PayState
  googlePayState : PayState
  masterpassState : PayState
deriving DecidableEq

/-- Embedding of `methodsSupported` (useSqPaymentForm.ts lines 248-260):
for each wallet key present in the event, set that wallet state to
ready when the value is strictly `true` and to unavailable otherwise;
keys that are absent leave the corresponding cell untouched. The code
checks masterpass, then applePay, then googlePay. -/
def methodsSupported (methods : SqMethods) (s : WalletStates) : WalletStates :=
  let s1 := match methods.masterpass with
    | some v => { s with masterpassState := if v then .ready else .unavailable }
    | none => s
  let s2 := match methods.applePay with
    | some v => { s1 with applePayState := if v then .ready else .unavailable }
    | none => s1
  match methods.googlePay with
  | some v => { s2 with googlePayState := if v then .ready else .unavailable }
  | none => s2

/-- Spec-side characterisation for claim C4: the state a single wallet
ends in after a sequence of events, looking only at that wallet own
reported values — ready when the last reported value is true,
unavailable when false, unchanged from `init` when never reported. -/
def lastReportedPay (w : SqMethods → Option Bool) (evs : List SqMethods)
    (init : PayState) : PayState :=
  evs.foldl
    (fun cur m => match w m with
      | some v => if v then .ready else .unavailable
      | none => cur)
    init

/-- Running the whole event sequence through the controller. -/
def runMethodsEvents (evs : List SqMethods) (s : WalletStates) : WalletStates :=
  evs.foldl (fun st m => methodsSupported m st) s

theorem methodsSupported_applePay (m : SqMethods) (s : WalletStates) :
    (methodsSupported m s).applePayState =
      match m.applePay with
      | some v => if v then .ready else .unavailable
      | none => s.applePayState := by
  rcases m with ⟨a, g, mp⟩
  cases a <;> cases g <;> cases mp <;> simp [methodsSupported]

theorem methodsSupported_googlePay (m : SqMethods) (s : WalletStates) :
    (methodsSupported m s).googlePayState =
      match m.googlePay with
      | some v => if v then .ready else .unavailable
      | none => s.googlePayState := by
  rcases m with ⟨a, g, mp⟩
  cases a <;> cases g <;> cases mp <;> simp [methodsSupported]

theorem methodsSupported_masterpass (m : SqMethods) (s : WalletStates) :
    (methodsSupported m s).masterpassState =
      match m.masterpass with
      | some v => if v then .ready else .unavailable
      | none => s.masterpassState := by
  rcases m with ⟨a, g, mp⟩
  cases a <;> cases g <;> cases mp <;> simp [methodsSupported]

/-- C4: for every sequence of wallet-availability events, each recorded
wallet state equals the most recently reported value for that wallet
only — ready if the reported value is true, unavailable otherwise — and
events omitting that wallet key, or concerning other wallets, leave it
unchanged. -/
theorem wallet_state_last_reported_wins (evs : List SqMethods) (s : WalletStates) :
    (runMethodsEvents evs s).applePayState =
        lastReportedPay (fun m => m.applePay) evs s.applePayState ∧
    (runMethodsEvents evs s).googlePayState =
        lastReportedPay (fun m => m.googlePay) evs s.googlePayState ∧
    (runMethodsEvents evs s).masterpassState =
        lastReportedPay (fun m => m.masterpass) evs s.masterpassState := by
  induction evs generalizing s with
  | nil => exact ⟨rfl, rfl, rfl⟩
  | cons m rest ih =>
    have h := ih (methodsSupported m s)
    have hrun : runMethodsEvents (m :: rest) s = runMethodsEvents rest (methodsSupported m s) := rfl
    refine ⟨?_, ?_, ?_⟩
    · rw [hrun, h.1, methodsSupported_applePay]
      rfl
    · rw [hrun, h.2.1, methodsSupported_googlePay]
      rfl
    · rw [hrun, h.2.2, methodsSupported_masterpass]
      rfl

/-- JavaScript `x || d` on an optional string: the default is used both
when the property is absent and when it is the empty string (falsy). -/
def jsOrDefault (x : Option String) (d : String) : String :=
  match x with
  | some s => if s.isEmpty then d else s
  | none => d

/-- The mutable state owned by `useSquarePaymentForm` (useSqPaymentForm.ts
lines 178-185): error message, script-loaded flag, the
`paymentFormRef` cell (a live handle is identified by a number), and
the built and loaded flags. Wallet states are kept separately in
`WalletStates`. -/
structure HookState where
  errorMessage : String
  scriptLoaded : Bool
  paymentFormRef : Option Nat
  built : Bool
  loaded : Bool
deriving DecidableEq

/-- Observable interactions with the external SqPaymentForm handle that
the build effect and the cleanup perform. -/
inductive FormEvent
| construct
| buildCall (h : Nat)
| destroyCall (h : Nat)
deriving DecidableEq

/-- Embedding of the `cleanup` closure (useSqPaymentForm.ts lines
358-373): when no handle is live it returns at once; otherwise it calls
`destroy` on the handle and, in the `finally` block, clears the
reference and resets the loaded and built flags. -/
def cleanup (s : HookState) : HookState × List FormEvent :=
  match s.paymentFormRef with
  | none => (s, [])
  | some h =>
      ({ s with paymentFormRef := none, loaded := false, built := false },
       [.destroyCall h])

/-- Outcome of the external calls `new SqPaymentForm cfg` followed by
`paymentForm.build`: both succeed producing a handle, the constructor
throws, or `build` throws after the constructor produced a handle. A
thrown error carries `some message` or no message at all. -/
inductive BuildEnv
| ok (h : Nat)
| ctorThrows (msg : Option String)
| buildThrows (h : Nat) (msg : Option String)
deriving DecidableEq

/-- Embedding of the body of the build effect (useSqPaymentForm.ts lines
375-405). Every path of the original returns the `cleanup` closure for
React to run later; here the function returns the updated state and the
external-handle events it emitted. -/
def buildEffect (s : HookState) (env : BuildEnv) : HookState × List FormEvent :=
  if s.built = false then (s, [])
  else if s.paymentFormRef.isSome then
    ({ s with errorMessage := "Square payment form has already been initialized" }, [])
  else if s.errorMessage.length > 0 then (s, [])
  else
    match env with
    | .ok h => ({ s with paymentFormRef := some h }, [.construct, .buildCall h])
    | .ctorThrows msg =>
        ({ s with errorMessage := jsOrDefault msg "Unable to build Square payment form" },
         [.construct])
    | .buildThrows h msg =>
        ({ s with errorMessage := jsOrDefault msg "Unable to build Square payment form" },
         [.construct, .buildCall h])

/-- Embedding of the `onError` continuation the script-loading effect
passes to `loadSqPaymentFormLibrary` (useSqPaymentForm.ts lines
349-353): it sets the error message. -/
def onScriptLoadError (s : HookState) : HookState :=
  { s with errorMessage := "Unable to load Square payment library" }

/-- Embedding of the `onSuccess` continuation of the same effect. -/
def onScriptLoadSuccess (s : HookState) : HookState :=
  { s with scriptLoaded := true }

theorem jsOrDefault_not_empty (x : Option String) (d : String)
    (hd : d.isEmpty = false) : (jsOrDefault x d).isEmpty = false := by
  cases x with
  | none => simpa [jsOrDefault]
  | some s => by_cases hs : s.isEmpty <;> simp [jsOrDefault, hs, hd]

/-- C5 counterexample: when a handle is already live at build time, the
error message the code actually stores is the string
"Square payment form has already been initialized", not the string
"already initialized" stated by the claim. -/
theorem double_build_error_string_cex :
    (buildEffect ⟨"", true, some 7, true, false⟩ (.ok 9)).1.errorMessage =
      "Square payment form has already been initialized" ∧
    (buildEffect ⟨"", true, some 7, true, false⟩ (.ok 9)).1.errorMessage ≠
      "already initialized" := by
  decide

/-- C5 amended: if a live handle exists when build is attempted, the
controller sets the error message to
"Square payment form has already been initialized", constructs no new
handle and invokes build on none (no external events), and the
registered cleanup then calls destroy on the pre-existing handle
exactly once and clears the reference; a second cleanup run performs no
further destroy call. -/
theorem double_build_guard (s : HookState) (h : Nat) (env : BuildEnv)
    (hb : s.built = true) (href : s.paymentFormRef = some h) :
    (buildEffect s env).1.errorMessage =
        "Square payment form has already been initialized" ∧
    (buildEffect s env).2 = [] ∧
    (cleanup (buildEffect s env).1).2 = [.destroyCall h] ∧
    (cleanup (buildEffect s env).1).1.paymentFormRef = none ∧
    (cleanup (cleanup (buildEffect s env).1).1).2 = [] := by
  rcases s with ⟨err, sl, ref, b, l⟩
  cases hb
  cases href
  simp [buildEffect, cleanup]

theorem double_build_guard_witness :
    (buildEffect ⟨"", true, some 7, true, false⟩ (.ok 9)).2 = [] ∧
    (cleanup (buildEffect ⟨"", true, some 7, true, false⟩ (.ok 9)).1).2 =
      [.destroyCall 7] :=
  ⟨(double_build_guard ⟨"", true, some 7, true, false⟩ 7 (.ok 9) rfl rfl).2.1,
   (double_build_guard ⟨"", true, some 7, true, false⟩ 7 (.ok 9) rfl rfl).2.2.1⟩

/-- C6 counterexample: on script-load failure the code stores the string
"Unable to load Square payment library", not the string
"Unable to load payment library" stated by the claim. -/
theorem script_load_error_string_cex :
    (onScriptLoadError ⟨"", false, none, false, false⟩).errorMessage =
      "Unable to load Square payment library" ∧
    (onScriptLoadError ⟨"", false, none, false, false⟩).errorMessage ≠
      "Unable to load payment library" := by
  decide

/-- C6 amended: on failure to load the external script the controller
sets the error message to "Unable to load Square payment library"; the
error is terminal for the attempt — a later run of the build effect
emits no construct or build event, leaves the handle reference empty,
and leaves the error message unchanged. -/
theorem script_load_failure_terminal (s : HookState) (env : BuildEnv)
    (href : s.paymentFormRef = none) :
    (onScriptLoadError s).errorMessage = "Unable to load Square payment library" ∧
    (buildEffect (onScriptLoadError s) env).2 = [] ∧
    (buildEffect (onScriptLoadError s) env).1.paymentFormRef = none ∧
    (buildEffect (onScriptLoadError s) env).1.errorMessage =
      "Unable to load Square payment library" := by
  rcases s with ⟨err, sl, ref, b, l⟩
  cases href
  have hpos : 0 < "Unable to load Square payment library".length := by decide
  cases b <;> simp [onScriptLoadError, buildEffect, hpos]

theorem script_load_failure_terminal_witness :
    (buildEffect (onScriptLoadError ⟨"", false, none, true, false⟩) (.ok 3)).2 = [] ∧
    (buildEffect (onScriptLoadError ⟨"", false, none, true, false⟩) (.ok 3)).1.paymentFormRef
      = none :=
  ⟨(script_load_failure_terminal ⟨"", false, none, true, false⟩ (.ok 3) rfl).2.1,
   (script_load_failure_terminal ⟨"", false, none, true, false⟩ (.ok 3) rfl).2.2.1⟩

/-- C7 counterexample: when the constructor or build throws an error
carrying no message, the default error message the code stores is
"Unable to build Square payment form", not "unable to build form" as
the claim states. -/
theorem build_throw_default_string_cex :
    (buildEffect ⟨"", true, none, true, false⟩ (.ctorThrows none)).1.errorMessage =
      "Unable to build Square payment form" ∧
    (buildEffect ⟨"", true, none, true, false⟩ (.ctorThrows none)).1.errorMessage ≠
      "unable to build form" := by
  decide

/-- C7 amended: if constructing the handle or invoking its build throws,
the controller stores the thrown message, or the default
"Unable to build Square payment form" when the error carries no message
or an empty one, ends in a non-empty-error state, and the handle
reference stays cleared, so the registered cleanup performs no destroy
call. -/
theorem build_throw_error_handling (s : HookState) (env : BuildEnv)
    (hb : s.built = true) (href : s.paymentFormRef = none)
    (herr : s.errorMessage = "") :
    (∀ msg, env = .ctorThrows msg →
        (buildEffect s env).1.errorMessage =
            jsOrDefault msg "Unable to build Square payment form" ∧
        (buildEffect s env).1.errorMessage.isEmpty = false ∧
        (buildEffect s env).1.paymentFormRef = none ∧
        (cleanup (buildEffect s env).1).2 = []) ∧
    (∀ h msg, env = .buildThrows h msg →
        (buildEffect s env).1.errorMessage =
            jsOrDefault msg "Unable to build Square payment form" ∧
        (buildEffect s env).1.errorMessage.isEmpty = false ∧
        (buildEffect s env).1.paymentFormRef = none ∧
        (cleanup (buildEffect s env).1).2 = []) := by
  rcases s with ⟨err, sl, ref, b, l⟩
  cases hb
  cases href
  cases herr
  constructor
  · intro msg hmsg
    cases hmsg
    have hne : (jsOrDefault msg "Unable to build Square payment form").isEmpty = false :=
      jsOrDefault_not_empty _ _ (by decide)
    refine ⟨?_, ?_, ?_, ?_⟩ <;>
      simp [buildEffect, cleanup, hne]
  · intro h msg hmsg
    cases hmsg
    have hne : (jsOrDefault msg "Unable to build Square payment form").isEmpty = false :=
      jsOrDefault_not_empty _ _ (by decide)
    refine ⟨?_, ?_, ?_, ?_⟩ <;>
      simp [buildEffect, cleanup, hne]

theorem build_throw_error_handling_witness :
    (buildEffect ⟨"", true, none, true, false⟩ (.ctorThrows (some "boom"))).1.errorMessage =
        jsOrDefault (some "boom") "Unable to build Square payment form" ∧
    (buildEffect ⟨"", true, none, true, false⟩ (.ctorThrows (some "boom"))).1.paymentFormRef
      = none :=
  ⟨((build_throw_error_handling ⟨"", true, none, true, false⟩
        (.ctorThrows (some "boom")) rfl rfl rfl).1 (some "boom") rfl).1,
   ((build_throw_error_handling ⟨"", true, none, true, false⟩
        (.ctorThrows (some "boom")) rfl rfl rfl).1 (some "boom") rfl).2.2.1⟩

/-- A buyer-verification result as delivered by the external handle to
the `verifyBuyer` callback; it carries a token. -/
structure SqVerificationResult where
  token : String
deriving DecidableEq

/-- What the external handle will deliver to the callback of a
`verifyBuyer` call: an error (or null) and a result (or null). The
handle itself is a black box, so the response is part of its model. -/
structure VerifyHandle where
  verifyErr : Option String
  verifyResult : Option SqVerificationResult
deriving DecidableEq

/-- The arguments the external form passes to the
`cardNonceResponseReceived` callback of its configuration: errors (a
list, or null), the nonce, the card data, and the three pass-through
contact and shipping arguments. Opaque payloads are strings. -/
structure NonceEvent where
  errors : Option (List String)
  nonce : String
  cardData : String
  billingContact : String
  shippingContact : String
  shippingOption : String
deriving DecidableEq

/-- A recorded invocation of the caller-supplied
`props.cardNonceResponseReceived`, in positional order. The fourth
argument `buyerVerificationToken` is `none` for `undefined`. -/
structure CallerNonceCall where
  errors : Option (List String)
  nonce : String
  cardData : String
  buyerVerificationToken : Option String
  billingContact : String
  shippingContact : String
  shippingOption : String
deriving DecidableEq

/-- A recorded invocation of the handle operation `verifyBuyer`: the
source and the verification details it was given. -/
structure VerifyBuyerCall where
  source : String
  details : String
deriving DecidableEq

/-- Embedding of the hook-level `cardNonceResponseReceived` wrapper
(useSqPaymentForm.ts lines 189-223).
`createVerificationDetails` is `none` when the caller supplied no
verification-details provider, `some d` when the provider returns `d`.
Returns the `verifyBuyer` calls made on the handle and the invocations
of the caller callback, in order. -/
def cardNonceResponseReceived (createVerificationDetails : Option String)
    (paymentFormRef : Option VerifyHandle) (ev : NonceEvent) :
    List VerifyBuyerCall × List CallerNonceCall :=
  if ev.errors.isSome ∨ createVerificationDetails.isNone then
    ([], [⟨ev.errors, ev.nonce, ev.cardData, some "",
           ev.billingContact, ev.shippingContact, ev.shippingOption⟩])
  else
    match paymentFormRef with
    | none => ([], [])
    | some handle =>
        let details := createVerificationDetails.getD ""
        ([⟨ev.nonce, details⟩],
         [⟨(match handle.verifyErr with
            | some e => some [e]
            | none => none),
           ev.nonce, ev.cardData,
           handle.verifyResult.map (fun r => r.token),
           ev.billingContact, ev.shippingContact, ev.shippingOption⟩])

/-- C2 counterexample: with null errors, a verification-details provider
present, and no live handle, the wrapper returns without notifying the
caller at all — zero caller invocations, not exactly one, and no
verifyBuyer call either. -/
theorem nonce_callback_dropped_without_handle_cex :
    (cardNonceResponseReceived (some "details") none
        ⟨none, "nonce1", "card1", "bill", "ship", "opt"⟩).2.length = 0 ∧
    (cardNonceResponseReceived (some "details") none
        ⟨none, "nonce1", "card1", "bill", "ship", "opt"⟩).1 = [] := by
  decide

/-- C2 amended: on a nonce-received event, if the errors argument is
non-null or no verification-details provider was supplied, the caller
callback is invoked exactly once, directly, with the empty string as
verification token and the original arguments. Otherwise, if a live
handle exists, the handle verifyBuyer is invoked exactly once with the
nonce as source and the caller-supplied details, and the caller
callback is invoked exactly once with the verification result token (or
no token when the result is null) as fourth argument; if no handle is
live, the event is dropped and the caller is not notified. -/
theorem nonce_callback_composition (cvd : Option String)
    (ref : Option VerifyHandle) (ev : NonceEvent) :
    (ev.errors.isSome = true ∨ cvd = none →
        (cardNonceResponseReceived cvd ref ev).1 = [] ∧
        (cardNonceResponseReceived cvd ref ev).2 =
          [⟨ev.errors, ev.nonce, ev.cardData, some "",
            ev.billingContact, ev.shippingContact, ev.shippingOption⟩]) ∧
    (∀ d handle, ev.errors = none → cvd = some d → ref = some handle →
        (cardNonceResponseReceived cvd ref ev).1 = [⟨ev.nonce, d⟩] ∧
        (cardNonceResponseReceived cvd ref ev).2 =
          [⟨(match handle.verifyErr with
             | some e => some [e]
             | none => none),
            ev.nonce, ev.cardData,
            handle.verifyResult.map (fun r => r.token),
            ev.billingContact, ev.shippingContact, ev.shippingOption⟩]) ∧
    (ev.errors = none → cvd.isSome = true → ref = none →
        (cardNonceResponseReceived cvd ref ev).1 = [] ∧
        (cardNonceResponseReceived cvd ref ev).2 = []) := by
  refine ⟨?_, ?_, ?_⟩
  · intro hdirect
    have hcond : ev.errors.isSome = true ∨ cvd.isNone = true := by
      rcases hdirect with h | h
      · exact Or.inl h
      · exact Or.inr (by simp [h])
    simp only [cardNonceResponseReceived]
    rw [if_pos hcond]
    exact ⟨rfl, rfl⟩
  · intro d handle herr hcvd href
    subst hcvd
    subst href
    simp [cardNonceResponseReceived, herr]
  · intro herr hcvd href
    subst href
    rcases cvd with _ | d
    · simp at hcvd
    · simp [cardNonceResponseReceived, herr]

theorem nonce_callback_composition_witness :
    (cardNonceResponseReceived (some "details")
        (some ⟨none, some ⟨"tok_abc"⟩⟩)
        ⟨none, "nonce1", "card1", "bill", "ship", "opt"⟩).1 =
      [⟨"nonce1", "details"⟩] ∧
    (cardNonceResponseReceived (some "details")
        (some ⟨none, some ⟨"tok_abc"⟩⟩)
        ⟨none, "nonce1", "card1", "bill", "ship", "opt"⟩).2 =
      [⟨none, "nonce1", "card1", some "tok_abc", "bill", "ship", "opt"⟩] := by
  have h :=
    (nonce_callback_composition (some "details") (some ⟨none, some ⟨"tok_abc"⟩⟩)
        ⟨none, "nonce1", "card1", "bill", "ship", "opt"⟩).2.1
      "details" ⟨none, some ⟨"tok_abc"⟩⟩ rfl rfl rfl
  exact ⟨h.1, h.2⟩

/-- Embedding of the `paymentFormLoaded` callback handed to the external
form (useSqPaymentForm.ts lines 262-264): it sets the loaded flag. -/
def paymentFormLoaded (s : HookState) : HookState :=
  { s with loaded := true }

/-- Observable actions of the post-load effect. -/
inductive LoadedAction
| recalc
| setPostal (code : String)
| focusField (f : String)
| notifyLoaded
deriving DecidableEq

/-- The caller-supplied optional inputs the post-load effect consumes:
the value the lazy `postalCode` accessor yields (none when the accessor
was not supplied), likewise for `focusField`, and whether a
`paymentFormLoaded` notifier was supplied. -/
structure LoadedProps where
  postalCode : Option String
  focusField : Option String
  hasLoadedNotifier : Bool
deriving DecidableEq

/-- Embedding of the body of the post-load effect (useSqPaymentForm.ts
lines 408-425): nothing happens unless the loaded flag is set and a
handle is live; then the effect calls recalculateSize, optionally sets
the postal code and focuses the designated field, and finally invokes
the caller notifier when present. -/
def loadedEffectBody (loaded : Bool) (ref : Option Nat) (p : LoadedProps) :
    List LoadedAction :=
  if loaded = false then []
  else
    match ref with
    | none => []
    | some _ =>
        [.recalc] ++
        (match p.postalCode with
         | some c => [.setPostal c]
         | none => []) ++
        (match p.focusField with
         | some f => [.focusField f]
         | none => []) ++
        (if p.hasLoadedNotifier then [.notifyLoaded] else [])

/-- React dependency semantics of the effect with dependency list
containing the loaded flag (the ref cell is identity-stable): given the
previous dependency value (`none` before the first render) and the
loaded value at each successive render, the body runs on mount and then
exactly at renders where the value changed. -/
def loadedEffectTrace (ref : Option Nat) (p : LoadedProps) :
    Option Bool → List Bool → List LoadedAction
  | _, [] => []
  | none, b :: rest =>
      loadedEffectBody b ref p ++ loadedEffectTrace ref p (some b) rest
  | some prev, b :: rest =>
      (if b = prev then [] else loadedEffectBody b ref p) ++
        loadedEffectTrace ref p (some b) rest

theorem loadedEffectTrace_const (ref : Option Nat) (p : LoadedProps)
    (v : Bool) (n : Nat) :
    loadedEffectTrace ref p (some v) (List.replicate n v) = [] := by
  induction n with
  | zero => rfl
  | succ k ih => simp [List.replicate_succ, loadedEffectTrace, ih]

theorem loadedEffectTrace_false_then (ref : Option Nat) (p : LoadedProps)
    (k : Nat) (rest : List Bool) :
    loadedEffectTrace ref p (some false) (List.replicate k false ++ rest) =
      loadedEffectTrace ref p (some false) rest := by
  induction k with
  | zero => rfl
  | succ j ih => simp [List.replicate_succ, loadedEffectTrace, ih]

/-- C8: after a successful build (a live handle), along any render trace
in which the loaded flag is false for a while and then — set by the
external `paymentFormLoaded` callback, which always sets it — stays
true, the post-load sequence runs exactly once: the emitted actions are
exactly one body run, which calls recalculateSize exactly once first,
then optionally sets the postal code and focuses the requested field
when those accessors were supplied, and finally invokes the caller
notifier exactly once when supplied. -/
theorem post_load_sequence_once (h : Nat) (p : LoadedProps) (a b : Nat)
    (s : HookState) (ha : 1 ≤ a) (hb : 1 ≤ b) :
    (paymentFormLoaded s).loaded = true ∧
    loadedEffectTrace (some h) p none
        (List.replicate a false ++ List.replicate b true) =
      loadedEffectBody true (some h) p ∧
    loadedEffectBody true (some h) p =
      [.recalc] ++
        (match p.postalCode with
         | some c => [.setPostal c]
         | none => []) ++
        (match p.focusField with
         | some f => [.focusField f]
         | none => []) ++
        (if p.hasLoadedNotifier then [.notifyLoaded] else []) ∧
    (loadedEffectTrace (some h) p none
        (List.replicate a false ++ List.replicate b true)).count .recalc = 1 ∧
    (p.hasLoadedNotifier = true →
      (loadedEffectTrace (some h) p none
          (List.replicate a false ++ List.replicate b true)).count .notifyLoaded = 1) := by
  obtain ⟨a, rfl⟩ : ∃ k, a = k + 1 := ⟨a - 1, by omega⟩
  obtain ⟨b, rfl⟩ : ∃ k, b = k + 1 := ⟨b - 1, by omega⟩
  have htrace : loadedEffectTrace (some h) p none
      (List.replicate (a + 1) false ++ List.replicate (b + 1) true) =
      loadedEffectBody true (some h) p := by
    rw [List.replicate_succ, List.cons_append]
    show loadedEffectBody false (some h) p ++
        loadedEffectTrace (some h) p (some false)
          (List.replicate a false ++ List.replicate (b + 1) true) = _
    rw [loadedEffectTrace_false_then, List.replicate_succ]
    show loadedEffectBody false (some h) p ++
        ((if (true = false) then [] else loadedEffectBody true (some h) p) ++
          loadedEffectTrace (some h) p (some true) (List.replicate b true)) = _
    rw [loadedEffectTrace_const]
    simp [loadedEffectBody]
  refine ⟨rfl, htrace, rfl, ?_, ?_⟩
  · rw [htrace]
    rcases p with ⟨pc, ff, ln⟩
    cases pc <;> cases ff <;> cases ln <;> simp [loadedEffectBody, List.count_cons, List.count_append]
  · intro hn
    rw [htrace]
    rcases p with ⟨pc, ff, ln⟩
    cases hn
    cases pc <;> cases ff <;> simp [loadedEffectBody, List.count_cons, List.count_append]

theorem post_load_sequence_once_witness :
    loadedEffectTrace (some 5) ⟨some "94103", some "cardNumber", true⟩ none
        (List.replicate 1 false ++ List.replicate 1 true) =
      loadedEffectBody true (some 5) ⟨some "94103", some "cardNumber", true⟩ ∧
    (loadedEffectTrace (some 5) ⟨some "94103", some "cardNumber", true⟩ none
        (List.replicate 1 false ++ List.replicate 1 true)).count .recalc = 1 :=
  ⟨(post_load_sequence_once 5 ⟨some "94103", some "cardNumber", true⟩ 1 1
      ⟨"", true, some 5, true, false⟩ (by decide) (by decide)).2.1,
   (post_load_sequence_once 5 ⟨some "94103", some "cardNumber", true⟩ 1 1
      ⟨"", true, some 5, true, false⟩ (by decide) (by decide)).2.2.2.1⟩

/-- The environment `loadSqPaymentFormLibrary` probes: whether a script
element with id sq-payment-form-script is in the document, and whether
the global SqPaymentForm binding is a function. -/
structure ScriptDoc where
  hasScriptElem : Bool
  sqPaymentFormIsFunction : Bool
deriving DecidableEq

def sandboxScriptUrl : String := "https://js.squareupsandbox.com/v2/paymentform"

def productionScriptUrl : String := "https://js.squareup.com/v2/paymentform"

/-- What a call to `loadSqPaymentFormLibrary` does: whether it invoked
the success continuation immediately (before returning), and the src
values of the script elements it appended to the document body. -/
structure LoadLibraryOutcome where
  immediateSuccess : Bool
  appendedScriptSrcs : List String
deriving DecidableEq

/-- Embedding of `loadSqPaymentFormLibrary` (useSqPaymentForm.ts lines
132-150): if the script element is already present and the constructor
is defined, call the success continuation at once and append nothing;
otherwise append exactly one script element whose src is the sandbox
URL when the sandbox flag is set and the production URL otherwise
(success or error then fire later from the handlers of the element). -/
def loadSqPaymentFormLibrary (sandbox : Bool) (doc : ScriptDoc) :
    LoadLibraryOutcome :=
  if doc.hasScriptElem ∧ doc.sqPaymentFormIsFunction then
    ⟨true, []⟩
  else
    ⟨false, [if sandbox then sandboxScriptUrl else productionScriptUrl]⟩

/-- C9: loading the external script is idempotent — with the loaded
marker present (script element and defined constructor) the success
continuation fires immediately and no script element is appended;
otherwise exactly one script element is appended, with the
sandbox-hosted URL under the sandbox flag and the production-hosted URL
otherwise, and success is not signalled synchronously. -/
theorem script_load_idempotent (sandbox : Bool) (doc : ScriptDoc) :
    (doc.hasScriptElem = true → doc.sqPaymentFormIsFunction = true →
        loadSqPaymentFormLibrary sandbox doc = ⟨true, []⟩) ∧
    (doc.hasScriptElem = false ∨ doc.sqPaymentFormIsFunction = false →
        loadSqPaymentFormLibrary sandbox doc =
          ⟨false, [if sandbox then sandboxScriptUrl else productionScriptUrl]⟩ ∧
        (loadSqPaymentFormLibrary sandbox doc).appendedScriptSrcs.length = 1) := by
  rcases doc with ⟨he, hf⟩
  cases he <;> cases hf <;> cases sandbox <;>
    simp [loadSqPaymentFormLibrary]

theorem script_load_idempotent_witness :
    loadSqPaymentFormLibrary true ⟨true, true⟩ = ⟨true, []⟩ ∧
    loadSqPaymentFormLibrary true ⟨false, false⟩ =
      ⟨false, [sandboxScriptUrl]⟩ :=
  ⟨(script_load_idempotent true ⟨true, true⟩).1 rfl rfl,
   by
    have h := ((script_load_idempotent true ⟨false, false⟩).2 (Or.inl rfl)).1
    simpa using h⟩

/-- One entry of the `inputStyles` array (the default entry of
`defaultProps` carries these nine presentation fields). -/
structure InputStyle where
  mozOsxFontSmoothing : String
  webkitFontSmoothing : String
  backgroundColor : String
  color : String
  fontFamily : String
  fontSize : String
  lineHeight : String
  padding : String
  placeholderColor : String
deriving DecidableEq

/-- The single default style entry of `defaultProps.inputStyles`. -/
def defaultInputStyle : InputStyle :=
  ⟨"grayscale", "antialiased", "transparent", "#373F4A",
   "Helvetica Neue", "16px", "24px", "16px", "#CCC"⟩

def defaultInputStyles : List InputStyle := [defaultInputStyle]

/-- A sub-configuration carrying only an element id (digital wallets). -/
structure ElementOnlyCfg where
  elementId : String
deriving DecidableEq

/-- A sub-configuration carrying an element id and a placeholder
(gift card and the individual card fields). -/
structure PlaceholderCfg where
  elementId : String
  placeholder : String
deriving DecidableEq

/-- The single-element card sub-configuration: element id plus the
first input style when one exists. -/
structure CardCfg where
  elementId : String
  inputStyle : Option InputStyle
deriving DecidableEq

/-- The value stored under the postalCode key: either a field
sub-configuration or the literal `false`. -/
inductive PostalCodeCfg
| fieldCfg (c : PlaceholderCfg)
| explicitFalse
deriving DecidableEq

/-- The assembled `SqPaymentFormConfiguration` data (models.ts shape as
populated by `buildSqPaymentFormConfiguration`); an `Option` field is
`none` when the corresponding key is omitted. Callback references are
function values and are outside this data model. -/
structure SqPaymentFormConfiguration where
  apiWrapper : String
  applicationId : String
  autoBuild : Bool
  locationId : String
  card : Option CardCfg
  giftCard : Option PlaceholderCfg
  inputClass : Option String
  inputStyles : Option (List InputStyle)
  applePay : Option ElementOnlyCfg
  googlePay : Option ElementOnlyCfg
  masterpass : Option ElementOnlyCfg
  cardNumber : Option PlaceholderCfg
  cvv : Option PlaceholderCfg
  postalCode : Option PostalCodeCfg
  expirationDate : Option PlaceholderCfg
deriving DecidableEq

/-- The props `buildSqPaymentFormConfiguration` consumes; optional
string props are `none` when absent. -/
structure ConfigProps where
  apiWrapper : Option String
  applicationId : String
  locationId : String
  formId : Option String
  inputStyles : Option (List InputStyle)
  inputClass : Option String
  placeholderGiftCard : Option String
  placeholderCreditCard : Option String
  placeholderCVV : Option String
  placeholderPostal : Option String
  placeholderExpiration : Option String
deriving DecidableEq

def defaultPlaceholderCard : String :=
  "• • • •  • • • •  • • • •  • • • •"

/-- The effective form id: `props.formId || defaultProps.formId`. -/
def configFormId (p : ConfigProps) : String :=
  jsOrDefault p.formId "sq-payment-form"

/-- Embedding of `buildSqPaymentFormConfiguration` (useSqPaymentForm.ts
lines 266-342). `dom id` tells whether `document.getElementById id`
finds an element. The `inputStyles` and `inputClass` locals come from
the destructuring with defaults on line 187 (the default applies only
when the prop is absent), while formId, apiWrapper and the placeholders
use JavaScript or-defaulting. -/
def buildSqPaymentFormConfiguration (p : ConfigProps) (dom : String → Bool) :
    SqPaymentFormConfiguration :=
  let inputStyles := p.inputStyles.getD defaultInputStyles
  let inputClass := p.inputClass.getD "sq-input"
  let formId := configFormId p
  let base : SqPaymentFormConfiguration :=
    { apiWrapper := jsOrDefault p.apiWrapper "reactjs/0.7.0"
      applicationId := p.applicationId
      autoBuild := false
      locationId := p.locationId
      card := none, giftCard := none
      inputClass := none, inputStyles := none
      applePay := none, googlePay := none, masterpass := none
      cardNumber := none, cvv := none, postalCode := none
      expirationDate := none }
  if dom (formId ++ "-sq-card") then
    { base with
      card := some ⟨formId ++ "-sq-card", inputStyles.head?⟩ }
  else if dom (formId ++ "-sq-gift-card") then
    { base with
      giftCard := some ⟨formId ++ "-sq-gift-card",
        jsOrDefault p.placeholderGiftCard defaultPlaceholderCard⟩
      inputClass := some inputClass
      inputStyles := some inputStyles }
  else
    { base with
      inputClass := some inputClass
      inputStyles := some inputStyles
      applePay :=
        if dom (formId ++ "-sq-apple-pay") then
          some ⟨formId ++ "-sq-apple-pay"⟩
        else none
      googlePay :=
        if dom (formId ++ "-sq-google-pay") then
          some ⟨formId ++ "-sq-google-pay"⟩
        else none
      masterpass :=
        if dom (formId ++ "-sq-masterpass") then
          some ⟨formId ++ "-sq-masterpass"⟩
        else none
      cardNumber :=
        if dom (formId ++ "-sq-card-number") then
          some ⟨formId ++ "-sq-card-number",
            jsOrDefault p.placeholderCreditCard defaultPlaceholderCard⟩
        else none
      cvv :=
        if dom (formId ++ "-sq-cvv") then
          some ⟨formId ++ "-sq-cvv", jsOrDefault p.placeholderCVV "CVV"⟩
        else none
      postalCode :=
        if dom (formId ++ "-sq-postal-code") then
          some (.fieldCfg ⟨formId ++ "-sq-postal-code",
            jsOrDefault p.placeholderPostal "12345"⟩)
        else some .explicitFalse
      expirationDate :=
        if dom (formId ++ "-sq-expiration-date") then
          some ⟨formId ++ "-sq-expiration-date",
            jsOrDefault p.placeholderExpiration "MM/YY"⟩
        else none }

theorem isSome_if_some_none {α : Type} (c : Bool) (x : α) :
    (if c = true then some x else none).isSome = c := by
  cases c <;> simp

/-- C10: the assembled configuration follows the fixed precedence — a
present card element yields only the single-element card
sub-configuration even when every other element exists; otherwise a
present gift-card element yields only the gift-card sub-configuration;
otherwise each wallet and individual-field sub-configuration is present
exactly when its element is, and postalCode is explicitly false rather
than omitted when its element is absent. -/
theorem config_assembly_precedence (p : ConfigProps) (dom : String → Bool) :
    (dom (configFormId p ++ "-sq-card") = true →
        (buildSqPaymentFormConfiguration p dom).card =
          some ⟨configFormId p ++ "-sq-card",
            (p.inputStyles.getD defaultInputStyles).head?⟩ ∧
        (buildSqPaymentFormConfiguration p dom).giftCard = none ∧
        (buildSqPaymentFormConfiguration p dom).applePay = none ∧
        (buildSqPaymentFormConfiguration p dom).googlePay = none ∧
        (buildSqPaymentFormConfiguration p dom).masterpass = none ∧
        (buildSqPaymentFormConfiguration p dom).cardNumber = none ∧
        (buildSqPaymentFormConfiguration p dom).cvv = none ∧
        (buildSqPaymentFormConfiguration p dom).postalCode = none ∧
        (buildSqPaymentFormConfiguration p dom).expirationDate = none) ∧
    (dom (configFormId p ++ "-sq-card") = false →
     dom (configFormId p ++ "-sq-gift-card") = true →
        (buildSqPaymentFormConfiguration p dom).card = none ∧
        (buildSqPaymentFormConfiguration p dom).giftCard =
          some ⟨configFormId p ++ "-sq-gift-card",
            jsOrDefault p.placeholderGiftCard defaultPlaceholderCard⟩ ∧
        (buildSqPaymentFormConfiguration p dom).applePay = none ∧
        (buildSqPaymentFormConfiguration p dom).googlePay = none ∧
        (buildSqPaymentFormConfiguration p dom).masterpass = none ∧
        (buildSqPaymentFormConfiguration p dom).cardNumber = none ∧
        (buildSqPaymentFormConfiguration p dom).cvv = none ∧
        (buildSqPaymentFormConfiguration p dom).postalCode = none ∧
        (buildSqPaymentFormConfiguration p dom).expirationDate = none) ∧
    (dom (configFormId p ++ "-sq-card") = false →
     dom (configFormId p ++ "-sq-gift-card") = false →
        (buildSqPaymentFormConfiguration p dom).card = none ∧
        (buildSqPaymentFormConfiguration p dom).giftCard = none ∧
        ((buildSqPaymentFormConfiguration p dom).applePay.isSome =
          dom (configFormId p ++ "-sq-apple-pay")) ∧
        ((buildSqPaymentFormConfiguration p dom).googlePay.isSome =
          dom (configFormId p ++ "-sq-google-pay")) ∧
        ((buildSqPaymentFormConfiguration p dom).masterpass.isSome =
          dom (configFormId p ++ "-sq-masterpass")) ∧
        ((buildSqPaymentFormConfiguration p dom).cardNumber.isSome =
          dom (configFormId p ++ "-sq-card-number")) ∧
        ((buildSqPaymentFormConfiguration p dom).cvv.isSome =
          dom (configFormId p ++ "-sq-cvv")) ∧
        ((buildSqPaymentFormConfiguration p dom).expirationDate.isSome =
          dom (configFormId p ++ "-sq-expiration-date")) ∧
        (dom (configFormId p ++ "-sq-postal-code") = false →
          (buildSqPaymentFormConfiguration p dom).postalCode =
            some .explicitFalse) ∧
        (dom (configFormId p ++ "-sq-postal-code") = true →
          (buildSqPaymentFormConfiguration p dom).postalCode =
            some (.fieldCfg ⟨configFormId p ++ "-sq-postal-code",
              jsOrDefault p.placeholderPostal "12345"⟩))) := by
  refine ⟨?_, ?_, ?_⟩
  · intro hcard
    simp [buildSqPaymentFormConfiguration, hcard]
  · intro hcard hgift
    simp [buildSqPaymentFormConfiguration, hcard, hgift]
  · intro hcard hgift
    refine ⟨?_, ?_, ?_, ?_, ?_, ?_, ?_, ?_, ?_, ?_⟩ <;>
      simp [buildSqPaymentFormConfiguration, hcard, hgift, isSome_if_some_none]

theorem config_assembly_precedence_witness :
    (buildSqPaymentFormConfiguration
        ⟨none, "app-id", "loc-id", none, none, none, none, none, none, none, none⟩
        (fun s => s = "sq-payment-form-sq-gift-card")).giftCard =
      some ⟨"sq-payment-form-sq-gift-card", defaultPlaceholderCard⟩ ∧
    (buildSqPaymentFormConfiguration
        ⟨none, "app-id", "loc-id", none, none, none, none, none, none, none, none⟩
        (fun s => s = "sq-payment-form-sq-gift-card")).card = none :=
  ⟨((config_assembly_precedence
      ⟨none, "app-id", "loc-id", none, none, none, none, none, none, none, none⟩
      (fun s => s = "sq-payment-form-sq-gift-card")).2.1
      (by decide) (by decide)).2.1,
   ((config_assembly_precedence
      ⟨none, "app-id", "loc-id", none, none, none, none, none, none, none, none⟩
      (fun s => s = "sq-payment-form-sq-gift-card")).2.1
      (by decide) (by decide)).1⟩

/-- The property keys of the object `useSquarePaymentForm` returns
(useSqPaymentForm.ts lines 443-456, the `SqPaymentHook` shape): build,
context, error, loaded, submit. -/
def hookResultKeys : List String :=
  ["build", "context", "error", "loaded", "submit"]

/-- The property keys of the nested `context` field of the hook result
(useSqPaymentForm.ts lines 445-452). -/
def innerContextKeys : List String :=
  ["applePayState", "formId", "googlePayState", "masterpassState",
   "onCreateNonce", "onVerifyBuyer"]

/-- The property keys `ContextInterface` declares (Context.tsx lines
6-31): the flat shared-context shape the nested elements and the shell
rely on, including the destroy control operation. -/
def contextInterfaceKeys : List String :=
  ["applePayState", "build", "destroy", "error", "formId",
   "googlePayState", "loaded", "masterpassState", "onCreateNonce",
   "onVerifyBuyer"]

/-- The unmount handler of SquarePaymentForm.tsx lines 27-35
destructures destroy from the hook result and calls it on unmount;
JavaScript property lookup yields a defined binding only when the key
exists on the object. -/
def shellDestroyBinding : Option String :=
  if hookResultKeys.contains "destroy" then some "destroy" else none

/-- SquarePaymentForm.tsx line 47 writes the mount div id from
context.formId, where the local named context is the hook result;
JavaScript property lookup yields a value only when the key exists on
the object and undefined otherwise. The configured form id would be the
value were the key present; it is not, so the lookup is undefined. -/
def shellFormIdBinding (configuredFormId : String) : Option String :=
  if hookResultKeys.contains "formId" then some configuredFormId else none

/-- The render result of the presentational shell
(SquarePaymentForm.tsx lines 37-52). In the mount-container case the
div id is `none` when the id attribute is undefined. -/
inductive ShellRender
| errorOnly (msg : String)
| mountContainer (providedValueKeys : List String) (divId : Option String)
    (childrenRendered : Bool)
deriving DecidableEq

/-- Embedding of the shell render: with a truthy (non-empty) error it
renders only the error text; otherwise it renders the Context.Provider
whose value spreads the hook result object, around the mount container
div whose id is whatever looking up formId on the hook result yields,
with the nested children inside. -/
def squarePaymentFormRender (error : String) (configuredFormId : String) :
    ShellRender :=
  if error.isEmpty = false then .errorOnly error
  else .mountContainer hookResultKeys (shellFormIdBinding configuredFormId) true

/-- C1 (code bug): the shell unmount handler calls a destroy binding
that does not exist on the hook result — the hook returns only build,
context, error, loaded and submit although the shared-context
declaration it implements lists destroy — so unmounting the shell
faults instead of (only) tearing down. The teardown closure that the
internal build effect registers does satisfy the claimed contract: it
calls destroy exactly once when a handle is live and never otherwise,
clears the reference, resets the loaded and built flags whenever a
handle was live, and a second run performs no further destroy call. -/
theorem unmount_destroy_missing_code_bug :
    shellDestroyBinding = none ∧
    hookResultKeys.contains "destroy" = false ∧
    contextInterfaceKeys.contains "destroy" = true ∧
    (∀ s : HookState,
      (cleanup s).1.paymentFormRef = none ∧
      (cleanup s).2 =
        (match s.paymentFormRef with
         | some h => [FormEvent.destroyCall h]
         | none => []) ∧
      (cleanup s).2.length ≤ 1 ∧
      (cleanup (cleanup s).1).2 = [] ∧
      (cleanup s).1.loaded = (if s.paymentFormRef.isSome then false else s.loaded) ∧
      (cleanup s).1.built = (if s.paymentFormRef.isSome then false else s.built)) := by
  refine ⟨by decide, by decide, by decide, ?_⟩
  intro s
  rcases s with ⟨err, sl, ref, b, l⟩
  cases ref <;> simp [cleanup]

/-- C3 (code bug): the error branch of the shell renders only the error
text; the non-error branch renders the mount container and children,
but the div id is undefined — line 47 reads formId off the hook result,
which has no formId key (the configured id sits inside the nested
context field) — so the container is not tagged with the configured
form id; and the Shared Context value the shell provisions spreads the
hook result, whose keys are build, context, error, loaded and submit —
the read-channel keys (applePayState, formId, onCreateNonce, ...) sit
one level down in the nested context field and destroy is absent
entirely, contradicting the flat ContextInterface shape the code itself
declares. -/
theorem shell_context_value_code_bug :
    (∀ e fid, e.isEmpty = false →
        squarePaymentFormRender e fid = .errorOnly e) ∧
    (∀ fid, squarePaymentFormRender "" fid =
        .mountContainer hookResultKeys none true) ∧
    (∀ fid, shellFormIdBinding fid = none) ∧
    hookResultKeys.contains "formId" = false ∧
    innerContextKeys.contains "formId" = true ∧
    hookResultKeys.contains "applePayState" = false ∧
    hookResultKeys.contains "googlePayState" = false ∧
    hookResultKeys.contains "masterpassState" = false ∧
    hookResultKeys.contains "onCreateNonce" = false ∧
    hookResultKeys.contains "onVerifyBuyer" = false ∧
    hookResultKeys.contains "destroy" = false ∧
    contextInterfaceKeys.contains "applePayState" = true ∧
    contextInterfaceKeys.contains "destroy" = true ∧
    innerContextKeys.contains "applePayState" = true := by
  have hc : "formId" ∉ hookResultKeys := by decide
  refine ⟨?_, ?_, ?_, by decide, by decide, by decide, by decide, by decide,
    by decide, by decide, by decide, by decide, by decide, by decide⟩
  · intro e fid he
    simp [squarePaymentFormRender, he]
  · intro fid
    simp [squarePaymentFormRender, String.isEmpty, shellFormIdBinding, hc]
  · intro fid
    simp [shellFormIdBinding, hc]

theorem shell_context_value_code_bug_witness :
    squarePaymentFormRender "boom" "sq-payment-form" = .errorOnly "boom" ∧
    squarePaymentFormRender "" "sq-payment-form" =
      .mountContainer hookResultKeys none true ∧
    shellFormIdBinding "sq-payment-form" = none :=
  ⟨shell_context_value_code_bug.1 "boom" "sq-payment-form" (by decide),
   shell_context_value_code_bug.2.1 "sq-payment-form",
   shell_context_value_code_bug.2.2.1 "sq-payment-form"⟩

end SqForm
